import Mathlib

/-!
# SkyMetropolis simulation engine — formal model

A shallow embedding of the city-simulation core of the SkyMetropolis
repository (`src/App.tsx`, `src/constants.tsx`): the building catalog,
the per-tick resource accounting (pass 1 aggregation, efficiencies,
pass 2 output), the population/pollution/happiness update, the disaster
damage pass, the goal state machine, the player click handler, and the
save/load codec.  JavaScript numbers are modelled as rationals (`ℚ`),
`Math.floor` as `Int.floor`, and the ambient random source as explicit
rational parameters.
-/

set_option autoImplicit false
set_option maxRecDepth 100000
set_option maxHeartbeats 8000000

namespace SkyMetropolis

/-- Building type tags, from `types.ts` / `constants.tsx`. -/
inductive BuildingType where
  | none
  | road
  | residential
  | commercial
  | industrial
  | park
  | powerPlant
  | waterPump
  | mixedUse
  | school
  | hospital
  | policeStation
  | stadium
  | airport
  deriving DecidableEq, Repr

/-- The numeric fields of `BuildingConfig` (presentation-only string fields
`name`/`description`/`color` are omitted). -/
structure BuildingConfig where
  cost : ℚ
  maintenanceCost : ℚ
  popGen : ℚ
  incomeGen : ℚ
  powerUsage : ℚ
  waterUsage : ℚ
  powerGen : ℚ
  waterGen : ℚ
  educationGen : ℚ
  healthcareGen : ℚ
  goodsGen : ℚ
  goodsUsage : ℚ
  safetyGen : ℚ
  deriving DecidableEq, Repr

/-- Map size, from `constants.tsx`. -/
def GRID_SIZE : ℕ := 15

/-- Starting treasury, from `constants.tsx`. -/
def INITIAL_MONEY : ℚ := 25000

/-- The static building catalog `BUILDINGS` of `constants.tsx`. -/
def BUILDINGS : BuildingType → BuildingConfig
  | .none =>
    { cost := 0, maintenanceCost := 0, popGen := 0, incomeGen := 0,
      powerUsage := 0, waterUsage := 0, powerGen := 0, waterGen := 0,
      educationGen := 0, healthcareGen := 0, goodsGen := 0, goodsUsage := 0,
      safetyGen := 0 }
  | .road =>
    { cost := 10, maintenanceCost := 1, popGen := 0, incomeGen := 0,
      powerUsage := 0, waterUsage := 0, powerGen := 0, waterGen := 0,
      educationGen := 0, healthcareGen := 0, goodsGen := 0, goodsUsage := 0,
      safetyGen := 0 }
  | .residential =>
    { cost := 100, maintenanceCost := 0, popGen := 5, incomeGen := 0,
      powerUsage := 1, waterUsage := 1, powerGen := 0, waterGen := 0,
      educationGen := 0, healthcareGen := 0, goodsGen := 0, goodsUsage := 0,
      safetyGen := 0 }
  | .mixedUse =>
    { cost := 350, maintenanceCost := 0, popGen := 8, incomeGen := 10,
      powerUsage := 2, waterUsage := 2, powerGen := 0, waterGen := 0,
      educationGen := 0, healthcareGen := 0, goodsGen := 0, goodsUsage := 2,
      safetyGen := 0 }
  | .commercial =>
    { cost := 200, maintenanceCost := 0, popGen := 0, incomeGen := 15,
      powerUsage := 2, waterUsage := 1, powerGen := 0, waterGen := 0,
      educationGen := 0, healthcareGen := 0, goodsGen := 0, goodsUsage := 3,
      safetyGen := 0 }
  | .industrial =>
    { cost := 400, maintenanceCost := 0, popGen := 0, incomeGen := 40,
      powerUsage := 5, waterUsage := 3, powerGen := 0, waterGen := 0,
      educationGen := 0, healthcareGen := 0, goodsGen := 10, goodsUsage := 0,
      safetyGen := 0 }
  | .park =>
    { cost := 50, maintenanceCost := 2, popGen := 1, incomeGen := 0,
      powerUsage := 0, waterUsage := 1, powerGen := 0, waterGen := 0,
      educationGen := 0, healthcareGen := 0, goodsGen := 0, goodsUsage := 0,
      safetyGen := 0 }
  | .powerPlant =>
    { cost := 500, maintenanceCost := 20, popGen := 0, incomeGen := 0,
      powerUsage := 0, waterUsage := 0, powerGen := 50, waterGen := 0,
      educationGen := 0, healthcareGen := 0, goodsGen := 0, goodsUsage := 0,
      safetyGen := 0 }
  | .waterPump =>
    { cost := 400, maintenanceCost := 15, popGen := 0, incomeGen := 0,
      powerUsage := 2, waterUsage := 0, powerGen := 0, waterGen := 50,
      educationGen := 0, healthcareGen := 0, goodsGen := 0, goodsUsage := 0,
      safetyGen := 0 }
  | .school =>
    { cost := 600, maintenanceCost := 25, popGen := 0, incomeGen := 0,
      powerUsage := 3, waterUsage := 2, powerGen := 0, waterGen := 0,
      educationGen := 100, healthcareGen := 0, goodsGen := 0, goodsUsage := 1,
      safetyGen := 0 }
  | .hospital =>
    { cost := 800, maintenanceCost := 40, popGen := 0, incomeGen := 0,
      powerUsage := 5, waterUsage := 3, powerGen := 0, waterGen := 0,
      educationGen := 0, healthcareGen := 150, goodsGen := 0, goodsUsage := 2,
      safetyGen := 0 }
  | .policeStation =>
    { cost := 700, maintenanceCost := 30, popGen := 0, incomeGen := 0,
      powerUsage := 3, waterUsage := 1, powerGen := 0, waterGen := 0,
      educationGen := 0, healthcareGen := 0, goodsGen := 0, goodsUsage := 1,
      safetyGen := 200 }
  | .stadium =>
    { cost := 3000, maintenanceCost := 100, popGen := 0, incomeGen := 60,
      powerUsage := 15, waterUsage := 10, powerGen := 0, waterGen := 0,
      educationGen := 0, healthcareGen := 0, goodsGen := 0, goodsUsage := 5,
      safetyGen := 0 }
  | .airport =>
    { cost := 8000, maintenanceCost := 250, popGen := 0, incomeGen := 300,
      powerUsage := 30, waterUsage := 10, powerGen := 0, waterGen := 0,
      educationGen := 0, healthcareGen := 0, goodsGen := 50, goodsUsage := 0,
      safetyGen := 0 }

/-- A grid tile (`TileData`): coordinates, building, optional road variant,
health (the code reads `tile.health ?? 100`; in-memory tiles always carry
a health value, so it is stored directly here). -/
structure Tile where
  x : ℕ
  y : ℕ
  buildingType : BuildingType
  variant : Option ℕ
  health : ℚ
  deriving DecidableEq, Repr

instance : Inhabited Tile := ⟨⟨0, 0, .none, none, 100⟩⟩

/-- The game grid: rows indexed `[y][x]`. -/
def Grid := List (List Tile)

instance : DecidableEq Grid := inferInstanceAs (DecidableEq (List (List Tile)))

/-- Weather tags. -/
inductive WeatherType where
  | sunny
  | rainy
  | snowy
  deriving DecidableEq, Repr

/-- The seven per-category budget sliders (`BudgetAllocation`). -/
structure Budget where
  infrastructure : ℚ
  power : ℚ
  water : ℚ
  education : ℚ
  healthcare : ℚ
  safety : ℚ
  environment : ℚ
  deriving DecidableEq, Repr

/-- All sliders at 100, the initial and fallback budget. -/
def defaultBudget : Budget :=
  { infrastructure := 100, power := 100, water := 100, education := 100,
    healthcare := 100, safety := 100, environment := 100 }

/-- The aggregate city statistics (`CityStats`). -/
structure CityStats where
  money : ℚ
  population : ℚ
  day : ℚ
  happiness : ℚ
  pollution : ℚ
  weather : WeatherType
  powerSupply : ℚ
  powerDemand : ℚ
  waterSupply : ℚ
  waterDemand : ℚ
  educationCoverage : ℚ
  healthcareCoverage : ℚ
  goodsSupply : ℚ
  goodsDemand : ℚ
  safetyCoverage : ℚ
  trafficCongestion : ℚ
  budget : Budget
  deriving DecidableEq, Repr

/-- The initial `useState<CityStats>` value of `App`. -/
def initialStats : CityStats :=
  { money := INITIAL_MONEY, population := 0, day := 1, happiness := 100,
    pollution := 0, weather := .sunny, powerSupply := 0, powerDemand := 0,
    waterSupply := 0, waterDemand := 0, educationCoverage := 100,
    healthcareCoverage := 100, goodsSupply := 0, goodsDemand := 0,
    safetyCoverage := 100, trafficCongestion := 0, budget := defaultBudget }

/-- `createInitialGrid` of `App.tsx`: a fresh `GRID_SIZE × GRID_SIZE` grid
of empty tiles at health 100. -/
def createInitialGrid : Grid :=
  (List.range GRID_SIZE).map fun y =>
    (List.range GRID_SIZE).map fun x =>
      { x := x, y := y, buildingType := .none, variant := none, health := 100 }

/-- The per-tick budget multiplier `getBudgetMultiplier` of the game loop. -/
def getBudgetMultiplier (budget : Budget) : BuildingType → ℚ
  | .road => budget.infrastructure / 100
  | .powerPlant => budget.power / 100
  | .waterPump => budget.water / 100
  | .school => budget.education / 100
  | .hospital => budget.healthcare / 100
  | .policeStation => budget.safety / 100
  | .park => budget.environment / 100
  | .stadium => budget.environment / 100
  | .airport => budget.infrastructure / 100
  | _ => 1

/-- The running totals accumulated by pass 1 of the game loop. -/
structure Agg where
  dailyMaintenance : ℚ
  pSupply : ℚ
  wSupply : ℚ
  pDemand : ℚ
  wDemand : ℚ
  eduCapacity : ℚ
  healthCapacity : ℚ
  safetyCapacity : ℚ
  gSupply : ℚ
  gDemand : ℚ
  trafficLoad : ℚ
  roadCapacity : ℚ
  deriving DecidableEq, Repr

/-- All pass-1 accumulators start at zero. -/
def Agg.zero : Agg :=
  { dailyMaintenance := 0, pSupply := 0, wSupply := 0, pDemand := 0,
    wDemand := 0, eduCapacity := 0, healthCapacity := 0, safetyCapacity := 0,
    gSupply := 0, gDemand := 0, trafficLoad := 0, roadCapacity := 0 }

/-- Whether a building type generates a unit of traffic load (pass 1). -/
def generatesTraffic : BuildingType → Bool
  | .residential => true
  | .commercial => true
  | .industrial => true
  | .mixedUse => true
  | .school => true
  | .hospital => true
  | .stadium => true
  | .airport => true
  | _ => false

/-- One pass-1 step: fold a tile into the aggregates (the body of the
`currentGrid.flat().forEach` loop). -/
def tileAgg (budget : Budget) (acc : Agg) (t : Tile) : Agg :=
  if t.buildingType = BuildingType.none then acc
  else
    let config := BUILDINGS t.buildingType
    let multiplier := getBudgetMultiplier budget t.buildingType
    let healthFactor := t.health / 100
    { dailyMaintenance := acc.dailyMaintenance + config.maintenanceCost * multiplier
      pSupply := acc.pSupply + config.powerGen * multiplier * healthFactor
      wSupply := acc.wSupply + config.waterGen * multiplier * healthFactor
      pDemand := acc.pDemand + config.powerUsage
      wDemand := acc.wDemand + config.waterUsage
      eduCapacity := acc.eduCapacity + config.educationGen * multiplier * healthFactor
      healthCapacity := acc.healthCapacity + config.healthcareGen * multiplier * healthFactor
      safetyCapacity := acc.safetyCapacity + config.safetyGen * multiplier * healthFactor
      gSupply := acc.gSupply + config.goodsGen * healthFactor
      gDemand := acc.gDemand + config.goodsUsage
      trafficLoad := acc.trafficLoad +
        (if generatesTraffic t.buildingType then 1 else 0) +
        (if t.buildingType = BuildingType.stadium then 4 else 0) +
        (if t.buildingType = BuildingType.airport then 12 else 0)
      roadCapacity := acc.roadCapacity +
        (if t.buildingType = BuildingType.road then 5 * healthFactor else 0) }

/-- Pass 1 of the game loop: aggregate supply/demand/maintenance over the
flattened grid. -/
def pass1 (g : Grid) (budget : Budget) : Agg :=
  (List.flatten g).foldl (tileAgg budget) Agg.zero

/-- `buildingCounts[bt] || 0`: occupancy count per building type (the count
map is only ever populated for non-empty tiles). -/
def countBT (g : Grid) (bt : BuildingType) : ℕ :=
  if bt = BuildingType.none then 0
  else (List.flatten g).countP fun t => decide (t.buildingType = bt)

/-- Supply/demand efficiency: `demand > 0 ? min(1, supply/demand) : 1`. -/
def effOf (supply demand : ℚ) : ℚ :=
  if 0 < demand then min 1 (supply / demand) else 1

/-- `powerEfficiency` of the tick. -/
def powerEfficiencyOf (g : Grid) (budget : Budget) : ℚ :=
  effOf (pass1 g budget).pSupply (pass1 g budget).pDemand

/-- `waterEfficiency` of the tick. -/
def waterEfficiencyOf (g : Grid) (budget : Budget) : ℚ :=
  effOf (pass1 g budget).wSupply (pass1 g budget).wDemand

/-- `goodsEfficiency` of the tick. -/
def goodsEfficiencyOf (g : Grid) (budget : Budget) : ℚ :=
  effOf (pass1 g budget).gSupply (pass1 g budget).gDemand

/-- `basicUtilEfficiency = (powerEfficiency + waterEfficiency)/2`. -/
def basicUtilEfficiencyOf (g : Grid) (budget : Budget) : ℚ :=
  (powerEfficiencyOf g budget + waterEfficiencyOf g budget) / 2

/-- `currentTrafficCongestion` of the tick. -/
def congestionOf (g : Grid) (budget : Budget) : ℚ :=
  let a := pass1 g budget
  if 0 < a.roadCapacity then min 100 (a.trafficLoad / a.roadCapacity * 100)
  else if 0 < a.trafficLoad then 100
  else 0

/-- One pass-2 step: accumulate `(dailyIncome, dailyPopGrowth)` for a tile. -/
def tileOut (basicUtil goodsEff : ℚ) (acc : ℚ × ℚ) (t : Tile) : ℚ × ℚ :=
  if t.buildingType = BuildingType.none then acc
  else
    let config := BUILDINGS t.buildingType
    let healthFactor := t.health / 100
    let tileIncome0 := config.incomeGen * basicUtil * healthFactor
    let tileIncome := if 0 < config.goodsUsage then tileIncome0 * goodsEff else tileIncome0
    (acc.1 + tileIncome, acc.2 + config.popGen * basicUtil * healthFactor)

/-- Pass 2 of the game loop, returning `(dailyIncome, dailyPopGrowth)`. -/
def pass2 (g : Grid) (basicUtil goodsEff : ℚ) : ℚ × ℚ :=
  (List.flatten g).foldl (tileOut basicUtil goodsEff) (0, 0)

/-- `dailyIncome` computed by the tick. -/
def dailyIncomeOf (g : Grid) (budget : Budget) : ℚ :=
  (pass2 g (basicUtilEfficiencyOf g budget) (goodsEfficiencyOf g budget)).1

/-- `dailyPopGrowth` computed by the tick. -/
def dailyPopGrowthOf (g : Grid) (budget : Budget) : ℚ :=
  (pass2 g (basicUtilEfficiencyOf g budget) (goodsEfficiencyOf g budget)).2

/-- `dailyMaintenance` computed by the tick (pass 1). -/
def dailyMaintenance (g : Grid) (budget : Budget) : ℚ :=
  (pass1 g budget).dailyMaintenance

/-- `totalHousing = residentialCount*50 + mixedUseCount*100`. -/
def totalHousing (g : Grid) : ℚ :=
  (countBT g .residential : ℚ) * 50 + (countBT g .mixedUse : ℚ) * 100

/-- The population update of the stats step:
`newPop = prev + growth`, clamped down to `totalHousing` when above it,
replaced by `max(0, prev - 5)` when `totalHousing == 0 && prev > 0`, then
floored to an integer. -/
def newPopulation (prevPop growth housing : ℚ) : ℚ :=
  let newPop0 := prevPop + growth
  let newPop1 := if housing < newPop0 then housing else newPop0
  let newPop2 := if housing = 0 ∧ 0 < prevPop then max 0 (prevPop - 5) else newPop1
  ((⌊newPop2⌋ : ℤ) : ℚ)

/-- `currentPollution = clamp(ind*10 + power*5 + airport*20 - park*5, 0, 100)`. -/
def pollutionOf (g : Grid) : ℚ :=
  max 0 (min 100 ((countBT g .industrial : ℚ) * 10 + (countBT g .powerPlant : ℚ) * 5
    + (countBT g .airport : ℚ) * 20 - (countBT g .park : ℚ) * 5))

/-- Service coverage: `pop > 0 ? min(100, capacity/pop*100) : 100`. -/
def coverageOf (capacity pop : ℚ) : ℚ :=
  if 0 < pop then min 100 (capacity / pop * 100) else 100

/-- The happiness block of the stats step, exactly in source order: base 60,
park/entertainment bonuses, pollution penalty, overcrowding penalty, the
homelessness override, utility penalties, service coverage adjustments,
goods shortage, traffic, wealth bonus, previous weather, disaster penalty,
and the final `clamp(floor(·), 0, 100)`. -/
def happinessCore (parkCount stadiumCount : ℕ) (pollution housing npop
    powerEff waterEff eduCov healthCov safetyCov goodsEff congestion
    prevMoney : ℚ) (prevWeather : WeatherType) (disaster : Bool) : ℚ :=
  let h0 : ℚ := 60 + (min ((parkCount : ℚ) * 5) 20 + min ((stadiumCount : ℚ) * 15) 30)
  let h1 := h0 - ((⌊pollution * 0.8⌋ : ℤ) : ℚ)
  let h2 := if 0 < housing ∧ housing * 0.9 < npop then h1 - 15 else h1
  let h3 := if housing = 0 ∧ 0 < npop then (10 : ℚ) else h2
  let h4 := if powerEff < 1 then h3 - 20 * (1 - powerEff) else h3
  let h5 := if waterEff < 1 then h4 - 20 * (1 - waterEff) else h4
  let h6 := if eduCov < 50 then h5 - 15 * (1 - eduCov / 50)
            else if 80 < eduCov then h5 + 5 else h5
  let h7 := if healthCov < 50 then h6 - 20 * (1 - healthCov / 50)
            else if 80 < healthCov then h6 + 5 else h6
  let h8 := if safetyCov < 50 then h7 - 15 * (1 - safetyCov / 50)
            else if 90 < safetyCov then h7 + 5 else h7
  let h9 := if goodsEff < 0.5 then h8 - 5 else h8
  let h10 := if 60 < congestion then h9 - ((⌊(congestion - 60) * 0.5⌋ : ℤ) : ℚ) else h9
  let h11 := if 2000 < prevMoney then h10 + 5 else h10
  let h12 := match prevWeather with
    | .rainy => h11 - 2
    | .sunny => h11 + 2
    | .snowy => h11 - 1
  let h13 := if disaster then h12 - 10 else h12
  max 0 (min 100 ((⌊h13⌋ : ℤ) : ℚ))

/-- The weather transition: with probability 0.05 reroll to
sunny (0.6) / rainy (0.25) / snowy (0.15); the two uniform draws are
explicit parameters. -/
def weatherStep (prev : WeatherType) (r1 r2 : ℚ) : WeatherType :=
  if r1 < 0.05 then
    if r2 < 0.6 then .sunny else if r2 < 0.85 then .rainy else .snowy
  else prev

/-- One stats update of the game loop (`setStats` in the tick): all derived
quantities are computed from the pre-disaster grid; `disasterOccurred` and
the two weather draws are passed in explicitly. -/
def tickStats (g : Grid) (prev : CityStats) (disasterOccurred : Bool)
    (wr1 wr2 : ℚ) : CityStats :=
  let b := prev.budget
  let a := pass1 g b
  let np := newPopulation prev.population (dailyPopGrowthOf g b) (totalHousing g)
  let eduCov := coverageOf a.eduCapacity np
  let healthCov := coverageOf a.healthCapacity np
  let safetyCov := coverageOf a.safetyCapacity np
  { prev with
    money := prev.money + (dailyIncomeOf g b - dailyMaintenance g b)
    population := np
    day := prev.day + 1
    happiness := happinessCore (countBT g .park) (countBT g .stadium)
      (pollutionOf g) (totalHousing g) np (powerEfficiencyOf g b)
      (waterEfficiencyOf g b) eduCov healthCov safetyCov
      (goodsEfficiencyOf g b) (congestionOf g b) prev.money prev.weather
      disasterOccurred
    pollution := pollutionOf g
    weather := weatherStep prev.weather wr1 wr2
    powerSupply := a.pSupply
    powerDemand := a.pDemand
    waterSupply := a.wSupply
    waterDemand := a.wDemand
    educationCoverage := ((⌊eduCov⌋ : ℤ) : ℚ)
    healthcareCoverage := ((⌊healthCov⌋ : ℤ) : ℚ)
    goodsSupply := a.gSupply
    goodsDemand := a.gDemand
    safetyCoverage := ((⌊safetyCov⌋ : ℤ) : ℚ)
    trafficCongestion := ((⌊congestionOf g b⌋ : ℤ) : ℚ) }

/-! ## Disaster damage pass -/

/-- A positionally indexed map over a list, starting at index `i`. -/
def mapWithIdx {α β : Type} (f : ℕ → α → β) : ℕ → List α → List β
  | _, [] => []
  | i, a :: as => f i a :: mapWithIdx f (i + 1) as

/-- The damage loop's range test for one axis pair: the source iterates
`y` from `max(0, cy-2)` to `min(GRID_SIZE-1, cy+2)` and `x` likewise
(natural subtraction models the `max(0, ·)`). -/
def inDisasterRange (cx cy x y : ℕ) : Prop :=
  cy - 2 ≤ y ∧ y ≤ min (GRID_SIZE - 1) (cy + 2) ∧
  cx - 2 ≤ x ∧ x ≤ min (GRID_SIZE - 1) (cx + 2)

instance (cx cy x y : ℕ) : Decidable (inDisasterRange cx cy x y) := by
  unfold inDisasterRange; infer_instance

/-- Per-tile damage amount: `Math.floor(Math.random()*40) + 20`, with the
uniform draw `r ∈ [0,1)` explicit. -/
def damageAmount (r : ℚ) : ℚ :=
  ((⌊r * 40⌋ : ℤ) : ℚ) + 20

/-- The body of the damage loop at one position: tiles in range that are
non-empty with positive health lose `damageAmount` health, floored at 0. -/
def disasterTileUpdate (cx cy : ℕ) (r : ℕ → ℕ → ℚ) (x y : ℕ) (t : Tile) : Tile :=
  if inDisasterRange cx cy x y ∧ t.buildingType ≠ BuildingType.none ∧ 0 < t.health
  then { t with health := max 0 (t.health - damageAmount (r x y)) }
  else t

/-- The grid mutation of a disaster with epicenter `(cx, cy)`: every
position gets the damage-loop body applied (positions outside the loop's
range are left as copied). `r x y` is the tile's uniform draw. -/
def applyDisaster (g : Grid) (cx cy : ℕ) (r : ℕ → ℕ → ℚ) : Grid :=
  mapWithIdx (fun y row => mapWithIdx (fun x t => disasterTileUpdate cx cy r x y t) 0 row) 0 g

/-- Tile lookup `grid[y][x]` as an `Option`. -/
def tileAt (g : Grid) (x y : ℕ) : Option Tile :=
  (List.get? g y).bind fun row => List.get? row x

/-! ## Goal state machine -/

/-- `AIGoal.targetType` tags. -/
inductive TargetType where
  | money
  | population
  | buildingCount
  deriving DecidableEq, Repr

/-- An AI goal (`AIGoal`). -/
structure AIGoal where
  description : String
  targetType : TargetType
  targetValue : ℚ
  buildingType : Option BuildingType
  reward : ℚ
  completed : Bool
  deriving DecidableEq, Repr

/-- The tick's goal predicate (`isMet`): money/population thresholds are
checked against the freshly computed stats, building counts against the
tick's grid; a `building_count` goal with no building type never fires. -/
def isMet (goal : AIGoal) (s : CityStats) (g : Grid) : Bool :=
  match goal.targetType with
  | .money => decide (goal.targetValue ≤ s.money)
  | .population => decide (goal.targetValue ≤ s.population)
  | .buildingCount =>
    match goal.buildingType with
    | some bt => decide (goal.targetValue ≤ (countBT g bt : ℚ))
    | none => false

/-- The goal-completion check at the end of a tick: only when the AI is
enabled and an uncompleted goal exists is the predicate evaluated, and a
met predicate latches `completed := true`. -/
def goalTick (aiEnabled : Bool) (goal : Option AIGoal) (s : CityStats) (g : Grid) :
    Option AIGoal :=
  match goal with
  | none => none
  | some gl =>
    if aiEnabled && !gl.completed && isMet gl s g
    then some { gl with completed := true }
    else some gl

/-- Folding the goal check over a sequence of tick outcomes
(new stats + the grid the tick counted), with the AI enabled. -/
def goalRun (goal : Option AIGoal) (ticks : List (CityStats × Grid)) : Option AIGoal :=
  ticks.foldl (fun gl p => goalTick true gl p.1 p.2) goal

/-! ## Player click handler -/

/-- News item type tags (the claim-relevant part of `NewsItem`). -/
inductive NewsType where
  | positive
  | negative
  | neutral
  deriving DecidableEq, Repr

/-- `addNewsItem`: keep the last 12 entries, then append. -/
def addNews (feed : List NewsType) (t : NewsType) : List NewsType :=
  feed.drop (feed.length - 12) ++ [t]

/-- `grid[y][x]` with the (never used on a well-formed grid) default tile. -/
def tileAtD (g : Grid) (x y : ℕ) : Tile :=
  (g.getD y []).getD x default

/-- Write a tile back at `grid[y][x]`. -/
def setTile (g : Grid) (x y : ℕ) (t : Tile) : Grid :=
  g.set y ((g.getD y []).set x t)

/-- The result of one click: the grid, treasury, and news feed afterwards. -/
structure ClickResult where
  grid : Grid
  money : ℚ
  news : List NewsType
  deriving DecidableEq

/-- `handleTileClick`, branch for branch: bounds guard, repair of a damaged
occupied tile with a non-bulldoze tool, bulldoze, road-variant upgrade,
then placement on an empty tile; each mutating branch is guarded by an
affordability test whose failure only appends a negative news item. -/
def handleTileClick (g : Grid) (money : ℚ) (news : List NewsType)
    (tool : BuildingType) (x y : ℕ) : ClickResult :=
  if GRID_SIZE ≤ x ∨ GRID_SIZE ≤ y then ⟨g, money, news⟩
  else
    let currentTile := tileAtD g x y
    let buildingConfig := BUILDINGS tool
    if currentTile.buildingType ≠ BuildingType.none ∧ tool ≠ BuildingType.none ∧
        currentTile.health < 100 then
      let repairCost := ((⌊(BUILDINGS currentTile.buildingType).cost * 0.5⌋ : ℤ) : ℚ)
      if repairCost ≤ money then
        ⟨setTile g x y { currentTile with health := 100 }, money - repairCost,
          addNews news .neutral⟩
      else ⟨g, money, addNews news .negative⟩
    else if tool = BuildingType.none then
      if currentTile.buildingType ≠ BuildingType.none then
        if (5 : ℚ) ≤ money then
          let cleared := { currentTile with buildingType := BuildingType.none, variant := some 0, health := 100 }
          ⟨setTile g x y cleared, money - 5, news⟩
        else ⟨g, money, addNews news .negative⟩
      else ⟨g, money, news⟩
    else if tool = BuildingType.road ∧ currentTile.buildingType = BuildingType.road then
      let newVariant := (currentTile.variant.getD 0 + 1) % 4
      if (50 : ℚ) ≤ money then
        ⟨setTile g x y { currentTile with variant := some newVariant }, money - 50,
          addNews news .neutral⟩
      else ⟨g, money, addNews news .negative⟩
    else if currentTile.buildingType = BuildingType.none then
      if buildingConfig.cost ≤ money then
        let placed := { currentTile with buildingType := tool, variant := some 0, health := 100 }
        ⟨setTile g x y placed, money - buildingConfig.cost, news⟩
      else ⟨g, money, addNews news .negative⟩
    else ⟨g, money, news⟩

/-- The cost of the action a click would attempt, following the handler's
branch structure: `some c` when a priced action (repair / demolish /
road upgrade / placement) is selected, `none` when the click is a no-op. -/
def attemptedCost (g : Grid) (tool : BuildingType) (x y : ℕ) : Option ℚ :=
  if GRID_SIZE ≤ x ∨ GRID_SIZE ≤ y then none
  else
    let currentTile := tileAtD g x y
    if currentTile.buildingType ≠ BuildingType.none ∧ tool ≠ BuildingType.none ∧
        currentTile.health < 100 then
      some ((⌊(BUILDINGS currentTile.buildingType).cost * 0.5⌋ : ℤ) : ℚ)
    else if tool = BuildingType.none then
      if currentTile.buildingType ≠ BuildingType.none then some 5 else none
    else if tool = BuildingType.road ∧ currentTile.buildingType = BuildingType.road then
      some 50
    else if currentTile.buildingType = BuildingType.none then
      some (BUILDINGS tool).cost
    else none

/-! ## Persistence codec -/

/-- A serialized tile: `health` may be absent in legacy saves. -/
structure SaveTile where
  x : ℕ
  y : ℕ
  buildingType : BuildingType
  variant : Option ℕ
  health : Option ℚ
  deriving DecidableEq, Repr

/-- Serialized `CityStats`: every field added after the first release is
optional, defaulted on load. -/
structure SaveStats where
  money : ℚ
  population : ℚ
  day : ℚ
  happiness : Option ℚ
  pollution : Option ℚ
  weather : Option WeatherType
  powerSupply : Option ℚ
  powerDemand : Option ℚ
  waterSupply : Option ℚ
  waterDemand : Option ℚ
  educationCoverage : Option ℚ
  healthcareCoverage : Option ℚ
  goodsSupply : Option ℚ
  goodsDemand : Option ℚ
  safetyCoverage : Option ℚ
  trafficCongestion : Option ℚ
  budget : Option Budget
  deriving DecidableEq, Repr

/-- The persisted save record of `handleSaveGame`. -/
structure SaveRecord where
  grid : List (List SaveTile)
  stats : SaveStats
  currentGoal : Option AIGoal
  newsFeed : List NewsType
  aiEnabled : Bool
  savedAt : ℚ
  deriving DecidableEq

/-- The in-memory session state the codec snapshots/restores. -/
structure GameState where
  grid : Grid
  stats : CityStats
  currentGoal : Option AIGoal
  newsFeed : List NewsType
  aiEnabled : Bool
  deriving DecidableEq

/-- Serialize one tile (all fields present). -/
def saveTile (t : Tile) : SaveTile :=
  { x := t.x, y := t.y, buildingType := t.buildingType, variant := t.variant,
    health := some t.health }

/-- Restore one tile: `health: tile.health ?? 100`. -/
def loadTile (st : SaveTile) : Tile :=
  { x := st.x, y := st.y, buildingType := st.buildingType, variant := st.variant,
    health := st.health.getD 100 }

/-- Serialize the stats (all optional fields present). -/
def saveStats (s : CityStats) : SaveStats :=
  { money := s.money, population := s.population, day := s.day,
    happiness := some s.happiness, pollution := some s.pollution,
    weather := some s.weather, powerSupply := some s.powerSupply,
    powerDemand := some s.powerDemand, waterSupply := some s.waterSupply,
    waterDemand := some s.waterDemand,
    educationCoverage := some s.educationCoverage,
    healthcareCoverage := some s.healthcareCoverage,
    goodsSupply := some s.goodsSupply, goodsDemand := some s.goodsDemand,
    safetyCoverage := some s.safetyCoverage,
    trafficCongestion := some s.trafficCongestion, budget := some s.budget }

/-- Restore the stats with the legacy-save defaults of `handleLoadGame`. -/
def loadStats (s : SaveStats) : CityStats :=
  { money := s.money, population := s.population, day := s.day,
    happiness := s.happiness.getD 100, pollution := s.pollution.getD 0,
    weather := s.weather.getD .sunny, powerSupply := s.powerSupply.getD 0,
    powerDemand := s.powerDemand.getD 0, waterSupply := s.waterSupply.getD 0,
    waterDemand := s.waterDemand.getD 0,
    educationCoverage := s.educationCoverage.getD 100,
    healthcareCoverage := s.healthcareCoverage.getD 100,
    goodsSupply := s.goodsSupply.getD 0, goodsDemand := s.goodsDemand.getD 0,
    safetyCoverage := s.safetyCoverage.getD 100,
    trafficCongestion := s.trafficCongestion.getD 0,
    budget := s.budget.getD defaultBudget }

/-- `handleSaveGame`: snapshot the session into a save record. -/
def saveGame (gs : GameState) (now : ℚ) : SaveRecord :=
  { grid := gs.grid.map (List.map saveTile), stats := saveStats gs.stats,
    currentGoal := gs.currentGoal, newsFeed := gs.newsFeed,
    aiEnabled := gs.aiEnabled, savedAt := now }

/-- `handleLoadGame` on a well-formed record: restore the session, applying
the legacy defaults. -/
def loadGame (r : SaveRecord) : GameState :=
  { grid := r.grid.map (List.map loadTile), stats := loadStats r.stats,
    currentGoal := r.currentGoal, newsFeed := r.newsFeed,
    aiEnabled := r.aiEnabled }

/-- A save record carrying only the original three stats fields. -/
def legacyStats (m p d : ℚ) : SaveStats :=
  { money := m, population := p, day := d, happiness := none, pollution := none,
    weather := none, powerSupply := none, powerDemand := none,
    waterSupply := none, waterDemand := none, educationCoverage := none,
    healthcareCoverage := none, goodsSupply := none, goodsDemand := none,
    safetyCoverage := none, trafficCongestion := none, budget := none }

/-- Every building type, for the round-trip hypothesis. -/
def allBuildingTypes : List BuildingType :=
  [.none, .road, .residential, .commercial, .industrial, .park, .powerPlant,
   .waterPump, .mixedUse, .school, .hospital, .policeStation, .stadium, .airport]

/-- The grid contains at least one tile of every building type. -/
def containsAllTypes (g : Grid) : Bool :=
  allBuildingTypes.all fun bt => (List.flatten g).any fun t => decide (t.buildingType = bt)

/-- The grid contains at least one damaged tile. -/
def hasDamagedTile (g : Grid) : Bool :=
  (List.flatten g).any fun t => decide (t.health < 100)

/-! ## Specification-side formulations and concrete scenarios -/

/-- The per-tile maintenance charge as the amended specification words it:
the catalog maintenance cost scaled by the building category's budget
slider (and by nothing else). -/
def budgetScaledMaintenance (budget : Budget) (t : Tile) : ℚ :=
  if t.buildingType = BuildingType.none then 0
  else (BUILDINGS t.buildingType).maintenanceCost * getBudgetMultiplier budget t.buildingType

/-- The claim's formulation of total maintenance: the unscaled catalog
maintenance cost summed over occupied tiles. -/
def catalogMaintenance (g : Grid) : ℚ :=
  ((List.flatten g).map fun t =>
    if t.buildingType = BuildingType.none then 0
    else (BUILDINGS t.buildingType).maintenanceCost).sum

/-- Replace every tile's health (used to state that maintenance ignores
health). -/
def setAllHealth (g : Grid) (h : ℚ) : Grid :=
  g.map (List.map fun t => { t with health := h })

/-- The grid of the literal scenario of claim C4: one Residential, one
PowerPlant and one WaterPump on an otherwise fresh grid. -/
def c4grid : Grid :=
  setTile (setTile (setTile createInitialGrid
    0 0 ⟨0, 0, .residential, some 0, 100⟩)
    1 0 ⟨1, 0, .powerPlant, some 0, 100⟩)
    2 0 ⟨2, 0, .waterPump, some 0, 100⟩

/-- A prior state with population 100 on an otherwise initial city. -/
def prevPop100 : CityStats := { initialStats with population := 100 }

/-- A prior state with population 10 on an otherwise initial city. -/
def prevPop10 : CityStats := { initialStats with population := 10 }

/-- Budget with the power slider at 50, the rest at 100. -/
def b50 : Budget := { defaultBudget with power := 50 }

/-- A fresh grid with a single PowerPlant at the origin. -/
def g2 : Grid := setTile createInitialGrid 0 0 ⟨0, 0, .powerPlant, some 0, 100⟩

/-- A fresh grid with a single Residential at (5,5), used as a disaster
epicenter. -/
def wDisasterGrid : Grid := setTile createInitialGrid 5 5 ⟨5, 5, .residential, some 0, 100⟩

/-- A row holding one tile of every building type, one of them damaged. -/
def wRow : List Tile :=
  [⟨0, 0, .none, none, 100⟩, ⟨1, 0, .road, some 1, 100⟩,
   ⟨2, 0, .residential, some 0, 50⟩, ⟨3, 0, .commercial, some 0, 100⟩,
   ⟨4, 0, .industrial, some 0, 100⟩, ⟨5, 0, .park, some 0, 100⟩,
   ⟨6, 0, .powerPlant, some 0, 100⟩, ⟨7, 0, .waterPump, some 0, 100⟩,
   ⟨8, 0, .mixedUse, some 0, 100⟩, ⟨9, 0, .school, some 0, 100⟩,
   ⟨10, 0, .hospital, some 0, 100⟩, ⟨11, 0, .policeStation, some 0, 100⟩,
   ⟨12, 0, .stadium, some 0, 100⟩, ⟨13, 0, .airport, some 0, 100⟩]

/-- A session state exercising every building type and a damaged tile. -/
def wGameState : GameState :=
  { grid := [wRow], stats := initialStats, currentGoal := none,
    newsFeed := [.positive], aiEnabled := true }

/-- A money goal at 30000, not yet completed. -/
def wGoal : AIGoal :=
  { description := "reach 30000", targetType := .money, targetValue := 30000,
    buildingType := none, reward := 500, completed := false }

/-- Two tick outcomes: money 29999 (below target), then 30050 (above). -/
def wTicks : List (CityStats × Grid) :=
  [({ initialStats with money := 29999 }, createInitialGrid),
   ({ initialStats with money := 30050 }, createInitialGrid)]

/-! ## Helper lemmas -/

theorem range15 : List.range 15 = [0, 1, 2, 3, 4, 5, 6, 7, 8, 9, 10, 11, 12, 13, 14] := rfl

theorem pass1_initial (b : Budget) : pass1 createInitialGrid b = Agg.zero := rfl

theorem pass2_initial (u v : ℚ) : pass2 createInitialGrid u v = (0, 0) := rfl

theorem countBT_initial_res : countBT createInitialGrid .residential = 0 := rfl

theorem countBT_initial_mix : countBT createInitialGrid .mixedUse = 0 := rfl

theorem countBT_initial_park : countBT createInitialGrid .park = 0 := rfl

theorem countBT_initial_stadium : countBT createInitialGrid .stadium = 0 := rfl

theorem countBT_initial_ind : countBT createInitialGrid .industrial = 0 := rfl

theorem countBT_initial_pp : countBT createInitialGrid .powerPlant = 0 := rfl

theorem countBT_initial_airport : countBT createInitialGrid .airport = 0 := rfl

theorem totalHousing_initial : totalHousing createInitialGrid = 0 := by
  rw [totalHousing, countBT_initial_res, countBT_initial_mix]; norm_num

/-- The tick's population field, definitionally. -/
theorem tickStats_population (g : Grid) (prev : CityStats) (d : Bool) (w1 w2 : ℚ) :
    (tickStats g prev d w1 w2).population
      = newPopulation prev.population (dailyPopGrowthOf g prev.budget) (totalHousing g) := rfl

/-- The tick's money field, definitionally. -/
theorem tickStats_money (g : Grid) (prev : CityStats) (d : Bool) (w1 w2 : ℚ) :
    (tickStats g prev d w1 w2).money
      = prev.money + (dailyIncomeOf g prev.budget - dailyMaintenance g prev.budget) := rfl

/-- The tick's happiness field, definitionally. -/
theorem tickStats_happiness (g : Grid) (prev : CityStats) (d : Bool) (w1 w2 : ℚ) :
    (tickStats g prev d w1 w2).happiness
      = happinessCore (countBT g .park) (countBT g .stadium) (pollutionOf g)
          (totalHousing g)
          (newPopulation prev.population (dailyPopGrowthOf g prev.budget) (totalHousing g))
          (powerEfficiencyOf g prev.budget) (waterEfficiencyOf g prev.budget)
          (coverageOf (pass1 g prev.budget).eduCapacity
            (newPopulation prev.population (dailyPopGrowthOf g prev.budget) (totalHousing g)))
          (coverageOf (pass1 g prev.budget).healthCapacity
            (newPopulation prev.population (dailyPopGrowthOf g prev.budget) (totalHousing g)))
          (coverageOf (pass1 g prev.budget).safetyCapacity
            (newPopulation prev.population (dailyPopGrowthOf g prev.budget) (totalHousing g)))
          (goodsEfficiencyOf g prev.budget) (congestionOf g prev.budget)
          prev.money prev.weather d := rfl

/-- `newPopulation` with its lets unfolded. -/
theorem newPopulation_eq (prevPop growth housing : ℚ) :
    newPopulation prevPop growth housing
      = ((⌊if housing = 0 ∧ 0 < prevPop then max 0 (prevPop - 5)
           else if housing < prevPop + growth then housing
           else prevPop + growth⌋ : ℤ) : ℚ) := rfl

/-- Pass 1's maintenance accumulator equals the sum of the per-tile
budget-scaled maintenance charges. -/
theorem foldl_tileAgg_maint (budget : Budget) (l : List Tile) (acc : Agg) :
    (l.foldl (tileAgg budget) acc).dailyMaintenance
      = acc.dailyMaintenance + (l.map (budgetScaledMaintenance budget)).sum := by
  induction l generalizing acc with
  | nil => simp
  | cons t l ih =>
    rw [List.foldl_cons, ih]
    by_cases h : t.buildingType = BuildingType.none
    · simp [tileAgg, budgetScaledMaintenance, h]
    · simp only [tileAgg, budgetScaledMaintenance, h, if_neg, if_false, List.map_cons,
        List.sum_cons]
      ring

theorem mapWithIdx_get {α β : Type} (f : ℕ → α → β) (l : List α) (i j : ℕ) :
    List.get? (mapWithIdx f i l) j = (List.get? l j).map (f (i + j)) := by
  induction l generalizing i j with
  | nil => simp [mapWithIdx]
  | cons a l ih =>
    cases j with
    | zero => simp [mapWithIdx]
    | succ j =>
      have hi : i + 1 + j = i + (j + 1) := by omega
      simp only [mapWithIdx, List.get?_cons_succ, ih (i + 1) j, hi]

/-- Lookup after the disaster pass: the per-position damage function is
applied pointwise. -/
theorem tileAt_applyDisaster (g : Grid) (cx cy : ℕ) (r : ℕ → ℕ → ℚ) (x y : ℕ) :
    tileAt (applyDisaster g cx cy r) x y
      = (tileAt g x y).map (disasterTileUpdate cx cy r x y) := by
  unfold tileAt applyDisaster
  rw [mapWithIdx_get, Nat.zero_add]
  cases List.get? g y with
  | none => rfl
  | some row =>
    simp only [Option.map_some', Option.some_bind]
    rw [mapWithIdx_get, Nat.zero_add]

/-- The goal predicate ignores the `completed` flag. -/
theorem isMet_setCompleted (gl : AIGoal) (b : Bool) (s : CityStats) (g : Grid) :
    isMet { gl with completed := b } s g = isMet gl s g := rfl

/-- A completed goal is a fixed point of the tick-by-tick goal check. -/
theorem goalRun_completed (gl : AIGoal) (h : gl.completed = true)
    (L : List (CityStats × Grid)) : goalRun (some gl) L = some gl := by
  induction L with
  | nil => rfl
  | cons p L ih =>
    show goalRun (goalTick true (some gl) p.1 p.2) L = some gl
    rw [goalTick, h]
    simpa using ih

/-- Round trip of a single tile through the codec. -/
theorem loadTile_saveTile (t : Tile) : loadTile (saveTile t) = t := rfl

/-! ## Claims -/

/-- C10: during a tick executed while `aiEnabled` is false, the goal-check
at the end of the tick leaves the current goal entirely unchanged — its
`completed` flag is never set, even when the goal's target condition holds
on the new stats. -/
theorem spec_C10 (goal : Option AIGoal) (s : CityStats) (g : Grid) :
    goalTick false goal s g = goal := by
  cases goal <;> rfl

/-- C8: a disaster with epicenter `(cx, cy)` and radius 2 leaves every tile
at Chebyshev distance greater than 2 from the epicenter exactly as it was
— health, building type and variant included. -/
theorem spec_C8 (g : Grid) (cx cy : ℕ) (r : ℕ → ℕ → ℚ) (x y : ℕ)
    (h : 2 < max ((x : ℤ) - (cx : ℤ)).natAbs ((y : ℤ) - (cy : ℤ)).natAbs) :
    tileAt (applyDisaster g cx cy r) x y = tileAt g x y := by
  rw [tileAt_applyDisaster]
  have hid : ∀ t : Tile, disasterTileUpdate cx cy r x y t = t := by
    intro t
    rw [disasterTileUpdate, if_neg]
    rintro ⟨hr, -, -⟩
    unfold inDisasterRange GRID_SIZE at hr
    omega
  cases tileAt g x y <;> simp [hid]

/-- Witness for C8 at a concrete epicenter and tile. -/
theorem spec_C8_witness :
    (2 < max (((0 : ℕ) : ℤ) - ((5 : ℕ) : ℤ)).natAbs (((0 : ℕ) : ℤ) - ((5 : ℕ) : ℤ)).natAbs)
    ∧ tileAt (applyDisaster wDisasterGrid 5 5 fun _ _ => 0) 0 0 = tileAt wDisasterGrid 0 0 :=
  ⟨by decide, spec_C8 wDisasterGrid 5 5 (fun _ _ => 0) 0 0 (by decide)⟩

/-- Counterexample for C9: no uniform draw in `[0,1)` produces a damage
amount of 60 — `Math.floor(random()*40) + 20` never reaches the claimed
upper endpoint. -/
theorem spec_C9_counterexample :
    ¬ ∃ rq : ℚ, 0 ≤ rq ∧ rq < 1 ∧ damageAmount rq = 60 := by
  rintro ⟨rq, h0, h1, hd⟩
  rw [damageAmount] at hd
  have hf : (⌊rq * 40⌋ : ℚ) = 40 := by linarith
  have hle : (⌊rq * 40⌋ : ℚ) ≤ rq * 40 := Int.floor_le _
  rw [hf] at hle
  linarith

/-- C9 (amended): inside the loop's radius-2 box every non-empty tile with
positive health has its health reduced by `damageAmount r = ⌊r*40⌋ + 20`,
floored at 0; for `r ∈ [0,1)` the reduction lies in `[20, 59]`, and every
integer in `[20, 59]` (not 60) is attainable. -/
theorem spec_C9_amended :
    (∀ (g : Grid) (cx cy : ℕ) (r : ℕ → ℕ → ℚ) (x y : ℕ) (t : Tile),
      tileAt g x y = some t → inDisasterRange cx cy x y →
      t.buildingType ≠ BuildingType.none → 0 < t.health →
      tileAt (applyDisaster g cx cy r) x y
        = some { t with health := max 0 (t.health - damageAmount (r x y)) })
    ∧ (∀ rq : ℚ, 0 ≤ rq → rq < 1 → 20 ≤ damageAmount rq ∧ damageAmount rq ≤ 59)
    ∧ (∀ dmg : ℤ, 20 ≤ dmg → dmg ≤ 59 →
        ∃ rq : ℚ, 0 ≤ rq ∧ rq < 1 ∧ damageAmount rq = (dmg : ℚ)) := by
  refine ⟨?_, ?_, ?_⟩
  · intro g cx cy r x y t ht hin hbt hh
    rw [tileAt_applyDisaster, ht, Option.map_some']
    rw [disasterTileUpdate, if_pos ⟨hin, hbt, hh⟩]
  · intro rq h0 h1
    rw [damageAmount]
    have hl : (0 : ℤ) ≤ ⌊rq * 40⌋ := Int.floor_nonneg.mpr (by linarith)
    have hu : ⌊rq * 40⌋ < 40 := Int.floor_lt.mpr (by push_cast; linarith)
    constructor
    · have : (0 : ℚ) ≤ (⌊rq * 40⌋ : ℚ) := by exact_mod_cast hl
      linarith
    · have : (⌊rq * 40⌋ : ℚ) ≤ 39 := by exact_mod_cast Int.lt_add_one_iff.mp hu
      linarith
  · intro dmg hl hu
    refine ⟨((dmg : ℚ) - 20) / 40, ?_, ?_, ?_⟩
    · apply div_nonneg _ (by norm_num)
      have : (20 : ℚ) ≤ (dmg : ℚ) := by exact_mod_cast hl
      linarith
    · rw [div_lt_one (by norm_num)]
      have : (dmg : ℚ) ≤ 59 := by exact_mod_cast hu
      linarith
    · rw [damageAmount, div_mul_cancel₀ _ (by norm_num : (40 : ℚ) ≠ 0)]
      have : ((dmg : ℚ) - 20) = ((dmg - 20 : ℤ) : ℚ) := by push_cast; ring
      rw [this, Int.floor_intCast]
      push_cast
      ring

/-- Witness for C9 (amended) at the draw 0. -/
theorem spec_C9_witness :
    ((0 : ℚ) ≤ 0) ∧ ((0 : ℚ) < 1) ∧ 20 ≤ damageAmount 0 ∧ damageAmount 0 ≤ 59 :=
  ⟨by decide, by decide, (spec_C9_amended.2.1 0 (by decide) (by decide)).1,
    (spec_C9_amended.2.1 0 (by decide) (by decide)).2⟩

/-- C7: with the goal system active, after any prefix of ticks the goal's
`completed` flag is exactly "some processed tick met the predicate on its
new stats": it flips at the first tick whose outcome meets the target,
never on an earlier one, and it latches; moreover a tick never resets a
completed goal. -/
theorem spec_C7 (g0 : AIGoal) (L : List (CityStats × Grid)) (k : ℕ)
    (h : g0.completed = false) :
    goalRun (some g0) (L.take k)
      = some { g0 with completed := (L.take k).any fun p => isMet g0 p.1 p.2 }
    ∧ ∀ (gl : AIGoal) (s : CityStats) (gr : Grid), gl.completed = true →
        goalTick true (some gl) s gr = some gl := by
  constructor
  · have main : ∀ M : List (CityStats × Grid),
        goalRun (some g0) M
          = some { g0 with completed := M.any fun p => isMet g0 p.1 p.2 } := by
      intro M
      induction M with
      | nil =>
        show some g0 = some { g0 with completed := false }
        rw [← h]
      | cons p M ih =>
        show goalRun (goalTick true (some g0) p.1 p.2) M = _
        by_cases hmet : isMet g0 p.1 p.2 = true
        · have hstep : goalTick true (some g0) p.1 p.2
              = some { g0 with completed := true } := by
            simp [goalTick, h, hmet]
          rw [hstep, goalRun_completed _ rfl]
          simp [hmet]
        · have hstep : goalTick true (some g0) p.1 p.2 = some g0 := by
            simp [goalTick, h, hmet]
          rw [hstep, ih]
          simp [hmet]
    exact main (L.take k)
  · intro gl s gr hgl
    simp [goalTick, hgl]

/-- Witness for C7 on the two-tick money-goal scenario. -/
theorem spec_C7_witness :
    wGoal.completed = false
    ∧ goalRun (some wGoal) (wTicks.take 2)
      = some { wGoal with completed := (wTicks.take 2).any fun p => isMet wGoal p.1 p.2 } :=
  ⟨rfl, (spec_C7 wGoal wTicks 2 rfl).1⟩

/-- C1 (amended): immediately after a tick, `population ≤ totalHousing`
holds whenever `totalHousing` is positive or the prior population was
nonpositive; in the remaining case (`totalHousing = 0` with a positive
prior population) the tick instead sets the population to
`⌊max 0 (prev − 5)⌋` — the emigration decay — which exceeds
`totalHousing = 0` whenever the prior population exceeds 5, so the
unconditional invariant of the claim fails exactly there. -/
theorem spec_C1 (g : Grid) (prev : CityStats) (d : Bool) (w1 w2 : ℚ) :
    ((0 < totalHousing g ∨ prev.population ≤ 0) →
      (tickStats g prev d w1 w2).population ≤ totalHousing g)
    ∧ (totalHousing g = 0 ∧ 0 < prev.population →
      (tickStats g prev d w1 w2).population
        = ((⌊max 0 (prev.population - 5)⌋ : ℤ) : ℚ)) := by
  rw [tickStats_population, newPopulation_eq]
  constructor
  · intro h
    have hcond : ¬ (totalHousing g = 0 ∧ 0 < prev.population) := by
      rintro ⟨h0, hp⟩
      rcases h with h | h
      · rw [h0] at h; exact lt_irrefl 0 h
      · linarith
    rw [if_neg hcond]
    by_cases hlt : totalHousing g < prev.population + dailyPopGrowthOf g prev.budget
    · rw [if_pos hlt]
      exact Int.floor_le _
    · rw [if_neg hlt]
      push_neg at hlt
      exact le_trans (Int.floor_le _) hlt
  · intro h
    rw [if_pos h]

/-- Witness for C1 (amended) on the three-building scenario grid. -/
theorem spec_C1_witness :
    (0 < totalHousing c4grid ∨ initialStats.population ≤ 0)
    ∧ (tickStats c4grid initialStats false 1 1).population ≤ totalHousing c4grid :=
  ⟨Or.inr (by norm_num [initialStats]),
    (spec_C1 c4grid initialStats false 1 1).1 (Or.inr (by norm_num [initialStats]))⟩

/-- Counterexample for C1: on a housing-free grid with prior population
100, the tick leaves population 95, strictly above `totalHousing = 0`. -/
theorem spec_C1_counterexample :
    totalHousing createInitialGrid = 0
    ∧ (tickStats createInitialGrid prevPop100 false 1 1).population = 95
    ∧ ¬ (tickStats createInitialGrid prevPop100 false 1 1).population
        ≤ totalHousing createInitialGrid := by
  have hgrow : dailyPopGrowthOf createInitialGrid prevPop100.budget = 0 := by
    rw [dailyPopGrowthOf, pass2_initial]
  have hpop : (tickStats createInitialGrid prevPop100 false 1 1).population = 95 := by
    rw [tickStats_population, hgrow, totalHousing_initial, newPopulation_eq]
    norm_num [prevPop100, initialStats, max_def]
  exact ⟨totalHousing_initial, hpop, by rw [hpop, totalHousing_initial]; norm_num⟩

/-- C2 (amended): the tick's total maintenance equals the sum over occupied
tiles of the catalog maintenance cost scaled by the building category's
budget multiplier — the budget sliders do scale maintenance — while tile
health leaves maintenance unchanged (a damaged building pays full upkeep). -/
theorem spec_C2_amended (g : Grid) (budget : Budget) (hq : ℚ) :
    dailyMaintenance g budget
      = ((List.flatten g).map (budgetScaledMaintenance budget)).sum
    ∧ dailyMaintenance (setAllHealth g hq) budget = dailyMaintenance g budget := by
  have hmain : ∀ gr : Grid,
      dailyMaintenance gr budget
        = ((List.flatten gr).map (budgetScaledMaintenance budget)).sum := by
    intro gr
    rw [dailyMaintenance, pass1, foldl_tileAgg_maint]
    simp [Agg.zero]
  refine ⟨hmain g, ?_⟩
  rw [hmain, hmain, setAllHealth, ← List.map_flatten, List.map_map]
  have hcomp : (budgetScaledMaintenance budget ∘ fun t => { t with health := hq })
      = budgetScaledMaintenance budget := funext fun t => rfl
  rw [hcomp]

/-- Counterexample for C2: with the power slider at 50, a lone PowerPlant
is charged 10 per tick, not its catalog maintenance 20 — maintenance is
scaled by the budget multiplier, contradicting the claim. -/
theorem spec_C2_counterexample :
    dailyMaintenance g2 b50 = 10 ∧ catalogMaintenance g2 = 20
    ∧ dailyMaintenance g2 b50 ≠ catalogMaintenance g2 := by
  have h1 : dailyMaintenance g2 b50 = 10 := by
    simp +decide only [dailyMaintenance, pass1, g2, createInitialGrid, GRID_SIZE, setTile,
      range15, List.map, List.set, List.flatten, List.foldl, List.getD,
      List.append_nil, List.cons_append, List.nil_append,
      tileAgg, Agg.zero, getBudgetMultiplier, BUILDINGS, b50, defaultBudget,
      generatesTraffic]
    norm_num
  have h2 : catalogMaintenance g2 = 20 := by
    simp +decide only [catalogMaintenance, g2, createInitialGrid, GRID_SIZE, setTile,
      range15, List.map, List.set, List.flatten, List.append_nil, List.cons_append,
      List.nil_append, List.sum_cons, List.sum_nil, BUILDINGS]
    norm_num
  exact ⟨h1, h2, by rw [h1, h2]; norm_num⟩

/-- C5: saving then loading restores the grid and stats (indeed the whole
session) exactly — in particular for states containing every building type
and a damaged tile — and a legacy record missing the newer fields loads
with exactly the documented defaults (happiness 100, pollution 0, sunny
weather, zero supplies and demands, coverages 100, congestion 0, all-100
budget, tile health 100). -/
theorem spec_C5 (gs : GameState) (now m p d : ℚ)
    (hall : containsAllTypes gs.grid = true) (hdmg : hasDamagedTile gs.grid = true) :
    loadGame (saveGame gs now) = gs
    ∧ loadStats (legacyStats m p d)
      = { money := m, population := p, day := d, happiness := 100, pollution := 0,
          weather := .sunny, powerSupply := 0, powerDemand := 0, waterSupply := 0,
          waterDemand := 0, educationCoverage := 100, healthcareCoverage := 100,
          goodsSupply := 0, goodsDemand := 0, safetyCoverage := 100,
          trafficCongestion := 0, budget := defaultBudget }
    ∧ ∀ st : SaveTile, st.health = none → (loadTile st).health = 100 := by
  refine ⟨?_, rfl, ?_⟩
  · cases gs with
    | mk grid stats goal news ai =>
      have hgrid : (grid.map (List.map saveTile)).map (List.map loadTile) = grid := by
        rw [List.map_map]
        have hrow : (List.map loadTile ∘ List.map saveTile) = id := by
          funext row
          rw [Function.comp_apply, List.map_map, id_eq]
          have hts : (loadTile ∘ saveTile) = id := funext loadTile_saveTile
          rw [hts, List.map_id]
        rw [hrow, List.map_id]
      have hstats : loadStats (saveStats stats) = stats := rfl
      simp [loadGame, saveGame, hgrid, hstats]
  · intro st hst
    simp [loadTile, hst]

/-- Witness for C5 on a session holding every building type and a damaged
Residential. -/
theorem spec_C5_witness :
    containsAllTypes wGameState.grid = true ∧ hasDamagedTile wGameState.grid = true
    ∧ loadGame (saveGame wGameState 0) = wGameState :=
  ⟨by decide, by decide,
    (spec_C5 wGameState 0 0 0 0 (by decide) (by decide)).1⟩

/-- C6: whenever a click selects a priced action (repair, demolish, road
upgrade or placement) whose cost exceeds the treasury, the handler rejects
it: the grid and the money are returned unchanged and exactly one
negative-type news item is appended. -/
theorem spec_C6 (g : Grid) (money : ℚ) (news : List NewsType) (tool : BuildingType)
    (x y : ℕ) (c : ℚ) (hc : attemptedCost g tool x y = some c) (hm : money < c) :
    handleTileClick g money news tool x y
      = ⟨g, money, addNews news NewsType.negative⟩ := by
  simp only [attemptedCost] at hc
  simp only [handleTileClick]
  split_ifs at hc ⊢ <;>
    first
      | rfl
      | exact Option.noConfusion hc
      | (exfalso
         rw [Option.some.injEq] at hc
         subst hc
         linarith)

/-- Witness for C6: placing a Road with an empty treasury is rejected
without touching the grid or the money. -/
theorem spec_C6_witness :
    attemptedCost createInitialGrid .road 0 0 = some 10 ∧ ((0 : ℚ) < 10)
    ∧ handleTileClick createInitialGrid 0 [] .road 0 0
      = ⟨createInitialGrid, 0, addNews [] .negative⟩ :=
  ⟨by decide, by decide,
    spec_C6 createInitialGrid 0 [] .road 0 0 10 (by decide) (by decide)⟩

/-- C3 (amended): when `totalHousing = 0` and the new population is
positive, the homelessness step overwrites everything computed before it
(base, park and entertainment bonuses, pollution penalty, overcrowding)
with 10 — the result is independent of those inputs — but the later terms
(utility penalties, service coverage, goods shortage, traffic, wealth
bonus, weather, disaster penalty) still adjust the value before the final
clamp, so the tick's happiness need not equal 10. -/
theorem spec_C3_amended :
    (∀ (g : Grid) (prev : CityStats) (d : Bool) (w1 w2 : ℚ),
      (tickStats g prev d w1 w2).happiness
        = happinessCore (countBT g .park) (countBT g .stadium) (pollutionOf g)
            (totalHousing g)
            (newPopulation prev.population (dailyPopGrowthOf g prev.budget)
              (totalHousing g))
            (powerEfficiencyOf g prev.budget) (waterEfficiencyOf g prev.budget)
            (coverageOf (pass1 g prev.budget).eduCapacity
              (newPopulation prev.population (dailyPopGrowthOf g prev.budget)
                (totalHousing g)))
            (coverageOf (pass1 g prev.budget).healthCapacity
              (newPopulation prev.population (dailyPopGrowthOf g prev.budget)
                (totalHousing g)))
            (coverageOf (pass1 g prev.budget).safetyCapacity
              (newPopulation prev.population (dailyPopGrowthOf g prev.budget)
                (totalHousing g)))
            (goodsEfficiencyOf g prev.budget) (congestionOf g prev.budget)
            prev.money prev.weather d)
    ∧ (∀ (p1 s1 : ℕ) (pol1 : ℚ) (p2 s2 : ℕ) (pol2 : ℚ)
        (npop pe we ec hc sc ge cg pm : ℚ) (w : WeatherType) (d : Bool),
        0 < npop →
        happinessCore p1 s1 pol1 0 npop pe we ec hc sc ge cg pm w d
          = happinessCore p2 s2 pol2 0 npop pe we ec hc sc ge cg pm w d) := by
  refine ⟨fun g prev d w1 w2 => tickStats_happiness g prev d w1 w2, ?_⟩
  intro p1 s1 pol1 p2 s2 pol2 npop pe we ec hc sc ge cg pm w d hn
  simp only [happinessCore, lt_self_iff_false, false_and, if_false, hn, and_true,
    eq_self_iff_true, if_true]

/-- Witness for C3 (amended): two very different pre-homelessness inputs,
equal results. -/
theorem spec_C3_witness :
    ((0 : ℚ) < 5)
    ∧ happinessCore 3 2 50 0 5 1 1 0 0 0 1 0 25000 .sunny false
      = happinessCore 0 0 0 0 5 1 1 0 0 0 1 0 25000 .sunny false :=
  ⟨by decide,
    spec_C3_amended.2 3 2 50 0 0 0 5 1 1 0 0 0 1 0 25000 .sunny false (by decide)⟩

/-- Counterexample for C3: on a housing-free city with prior population 10
(so new population 5 > 0), the tick's happiness is 0, not 10 — the service
coverage penalties, wealth bonus and weather still applied after the
homelessness override. -/
theorem spec_C3_counterexample :
    totalHousing createInitialGrid = 0
    ∧ 0 < (tickStats createInitialGrid prevPop10 false 1 1).population
    ∧ (tickStats createInitialGrid prevPop10 false 1 1).happiness = 0
    ∧ (tickStats createInitialGrid prevPop10 false 1 1).happiness ≠ 10 := by
  have hgrow : dailyPopGrowthOf createInitialGrid prevPop10.budget = 0 := by
    rw [dailyPopGrowthOf, pass2_initial]
  have hnp : newPopulation prevPop10.population
      (dailyPopGrowthOf createInitialGrid prevPop10.budget)
      (totalHousing createInitialGrid) = 5 := by
    rw [hgrow, totalHousing_initial, newPopulation_eq]
    norm_num [prevPop10, initialStats, max_def]
  have hpe : powerEfficiencyOf createInitialGrid prevPop10.budget = 1 := by
    rw [powerEfficiencyOf, pass1_initial]
    norm_num [Agg.zero, effOf]
  have hwe : waterEfficiencyOf createInitialGrid prevPop10.budget = 1 := by
    rw [waterEfficiencyOf, pass1_initial]
    norm_num [Agg.zero, effOf]
  have hge : goodsEfficiencyOf createInitialGrid prevPop10.budget = 1 := by
    rw [goodsEfficiencyOf, pass1_initial]
    norm_num [Agg.zero, effOf]
  have hcong : congestionOf createInitialGrid prevPop10.budget = 0 := by
    simp only [congestionOf, pass1_initial, Agg.zero]
    norm_num
  have hpol : pollutionOf createInitialGrid = 0 := by
    rw [pollutionOf, countBT_initial_ind, countBT_initial_pp, countBT_initial_airport,
      countBT_initial_park]
    norm_num [max_def, min_def]
  have hcov : coverageOf (0 : ℚ) 5 = 0 := by
    norm_num [coverageOf, min_def]
  have hhap : (tickStats createInitialGrid prevPop10 false 1 1).happiness
      = happinessCore 0 0 0 0 5 1 1 0 0 0 1 0 25000 .sunny false := by
    rw [tickStats_happiness, hnp, pass1_initial, countBT_initial_park,
      countBT_initial_stadium, hpol, totalHousing_initial, hpe, hwe, hge, hcong]
    show happinessCore 0 0 0 0 5 1 1 (coverageOf (0:ℚ) 5) (coverageOf (0:ℚ) 5)
      (coverageOf (0:ℚ) 5) 1 0 prevPop10.money prevPop10.weather false = _
    rw [hcov]
    rfl
  have hval : happinessCore 0 0 0 0 5 1 1 0 0 0 1 0 25000 .sunny false = 0 := by
    norm_num [happinessCore, min_def, max_def]
  refine ⟨totalHousing_initial, ?_, ?_, ?_⟩
  · rw [tickStats_population, hnp]; norm_num
  · rw [hhap, hval]
  · rw [hhap, hval]; norm_num

/-- C4: the corrected literal scenario — one Residential, one PowerPlant
and one WaterPump at full health with all sliders at 100 and no disaster:
power supply/demand 50/3 and water 50/1 give both efficiencies 1, daily
income 0, maintenance 35; one tick grows the population by exactly 5 and
drops the treasury by exactly 35. -/
theorem spec_C4 :
    (pass1 c4grid defaultBudget).pSupply = 50 ∧ (pass1 c4grid defaultBudget).pDemand = 3
    ∧ (pass1 c4grid defaultBudget).wSupply = 50 ∧ (pass1 c4grid defaultBudget).wDemand = 1
    ∧ powerEfficiencyOf c4grid defaultBudget = 1
    ∧ waterEfficiencyOf c4grid defaultBudget = 1
    ∧ dailyIncomeOf c4grid defaultBudget = 0
    ∧ dailyMaintenance c4grid defaultBudget = 35
    ∧ (tickStats c4grid initialStats false 1 1).population = initialStats.population + 5
    ∧ (tickStats c4grid initialStats false 1 1).money = initialStats.money - 35 := by
  have hpass1 : pass1 c4grid defaultBudget
      = { dailyMaintenance := 35, pSupply := 50, wSupply := 50, pDemand := 3,
          wDemand := 1, eduCapacity := 0, healthCapacity := 0, safetyCapacity := 0,
          gSupply := 0, gDemand := 0, trafficLoad := 1, roadCapacity := 0 } := by
    simp +decide only [pass1, c4grid, createInitialGrid, GRID_SIZE, setTile,
      range15, List.map, List.set, List.flatten, List.foldl, List.getD,
      List.append_nil, List.cons_append, List.nil_append,
      tileAgg, Agg.zero, getBudgetMultiplier, BUILDINGS, defaultBudget,
      generatesTraffic, Agg.mk.injEq]
    norm_num
  have hpe : powerEfficiencyOf c4grid defaultBudget = 1 := by
    rw [powerEfficiencyOf, hpass1]
    norm_num [effOf, min_def]
  have hwe : waterEfficiencyOf c4grid defaultBudget = 1 := by
    rw [waterEfficiencyOf, hpass1]
    norm_num [effOf, min_def]
  have hge : goodsEfficiencyOf c4grid defaultBudget = 1 := by
    rw [goodsEfficiencyOf, hpass1]
    norm_num [effOf]
  have hbu : basicUtilEfficiencyOf c4grid defaultBudget = 1 := by
    rw [basicUtilEfficiencyOf, hpe, hwe]
    norm_num
  have hpass2 : pass2 c4grid 1 1 = (0, 5) := by
    simp +decide only [pass2, c4grid, createInitialGrid, GRID_SIZE, setTile,
      range15, List.map, List.set, List.flatten, List.foldl, List.getD,
      List.append_nil, List.cons_append, List.nil_append,
      tileOut, BUILDINGS, Prod.mk.injEq]
    norm_num
  have hinc : dailyIncomeOf c4grid defaultBudget = 0 := by
    rw [dailyIncomeOf, hbu, hge, hpass2]
  have hgrowth : dailyPopGrowthOf c4grid defaultBudget = 5 := by
    rw [dailyPopGrowthOf, hbu, hge, hpass2]
  have hres : countBT c4grid .residential = 1 := rfl
  have hmix : countBT c4grid .mixedUse = 0 := rfl
  have hhous : totalHousing c4grid = 50 := by
    rw [totalHousing, hres, hmix]
    norm_num
  have hmaint : dailyMaintenance c4grid defaultBudget = 35 := by
    rw [dailyMaintenance, hpass1]
  have hb : initialStats.budget = defaultBudget := rfl
  have hpop : (tickStats c4grid initialStats false 1 1).population
      = initialStats.population + 5 := by
    rw [tickStats_population, hb, hgrowth, hhous, newPopulation_eq]
    norm_num [initialStats, max_def]
  have hmon : (tickStats c4grid initialStats false 1 1).money
      = initialStats.money - 35 := by
    rw [tickStats_money, hb, hinc, hmaint]
    ring
  exact ⟨by rw [hpass1], by rw [hpass1], by rw [hpass1], by rw [hpass1],
    hpe, hwe, hinc, hmaint, hpop, hmon⟩

end SkyMetropolis
